import Mathlib

/-!
Shallow embedding of the MCRealmsDiscordIntegration repository
(files mcrealms/_mcauth.py, mcrealms/mcrclient.py, webhooks/webhook.py)
together with theorems settling the frozen claims about it.

Strings are modelled as lists of characters so that the Python string
operations used by the code (str.split, str.index, slicing) can be
defined by structural recursion and reasoned about directly.  Python
exceptions are modelled by the inductive type PyErr; a function that can
raise returns Except PyErr.  The spec's error names (MalformedRedirect,
IdentityLoginFailed, PresenceQueryFailed, ...) are labels for the
concrete Python exceptions the code raises at those points.
-/

deriving instance DecidableEq for Except

namespace MCRealms

/-- Python exception values raised by the code under study:
Exception with a message, KeyError on a dict key, IndexError on list
indexing, ValueError on tuple-unpack mismatch, TypeError on subscripting
a non-dict/non-list. -/
inductive PyErr where
  | exn (msg : String)
  | keyError (k : List Char)
  | indexError
  | valueError
  | typeError
  deriving DecidableEq, Repr

/-- Python's `s.split(sep)` for a one-character separator: splits on every
occurrence, keeping empty pieces (`"a##b".split('#') == ["a","","b"]`,
`"ab".split('#') == ["ab"]`). -/
def splitOnChar (c : Char) : List Char → List (List Char)
  | [] => [[]]
  | x :: xs =>
    match splitOnChar c xs with
    | [] => if x = c then [[], []] else [[x]]
    | y :: ys => if x = c then [] :: y :: ys else (x :: y) :: ys

/-- Python dict assignment `d[k] = v`: overwrite in place if the key is
present, otherwise append (insertion order is kept). -/
def dictInsert (d : List (List Char × List Char)) (k v : List Char) :
    List (List Char × List Char) :=
  if d.any (fun p => p.1 = k) then
    d.map (fun p => if p.1 = k then (k, v) else p)
  else
    d ++ [(k, v)]

/-- The loop body of `MCAuthenticator._getParamsFromUrl`
(src/mcrealms/mcrealms/_mcauth.py lines 300-304): for each `&`-piece,
`param, val = paramStr.split('=')` (ValueError unless the split has
exactly two parts), then `params[param] = val`. -/
def buildParams : List (List Char) → List (List Char × List Char) →
    Except PyErr (List (List Char × List Char))
  | [], acc => .ok acc
  | p :: ps, acc =>
    match splitOnChar '=' p with
    | [k, v] => buildParams ps (dictInsert acc k v)
    | _ => .error .valueError

/-- `MCAuthenticator._getParamsFromUrl` (src/mcrealms/mcrealms/_mcauth.py
lines 285-305): `url.split('#')[1]` (IndexError when there is no `#`),
split the fragment on `&`, and build the parameter dict. -/
def getParamsFromUrl (url : List Char) :
    Except PyErr (List (List Char × List Char)) :=
  match (splitOnChar '#' url).get? 1 with
  | none => .error .indexError
  | some allParamsStr => buildParams (splitOnChar '&' allParamsStr) []

/-- The double-quote character, written by code point to keep string
literals free of escapes. -/
def dquote : Char := Char.ofNat 34

/-- The single-quote character, written by code point. -/
def squote : Char := Char.ofNat 39

/-- Whether `pre` is an initial segment of `l`. -/
def listStartsWith : List Char → List Char → Bool
  | [], _ => true
  | _ :: _, [] => false
  | p :: ps, x :: xs => p = x && listStartsWith ps xs

/-- Scanner for the tail of a non-greedy capture: having already consumed
at least one capture character (accumulated in `acc`, reversed), stop at
the first occurrence of `close`; a newline kills the capture because `.`
in Python regex does not match newlines. -/
def matchCapGo (close : Char) (acc : List Char) : List Char → Option (List Char)
  | [] => none
  | c :: rest =>
    if c = close then some acc.reverse
    else if c = '\n' then none
    else matchCapGo close (c :: acc) rest

/-- Non-greedy capture `(.+?)` followed by `close`: at least one
non-newline character, then the first `close`. Returns the captured
characters. -/
def matchCap (close : Char) : List Char → Option (List Char)
  | [] => none
  | c :: rest => if c = '\n' then none else matchCapGo close [c] rest

/-- Python `re.search` for the two patterns the code uses, both of shape
`lit(.+?)close` with `lit` a literal and `close` a one-character literal:
scan left to right for the first position where `lit` matches and the
non-greedy capture completes, and return the whole matched substring
(`match.group()`), literal and closing character included. -/
def reSearch (lit : List Char) (close : Char) : List Char → Option (List Char)
  | [] => none
  | t@(_ :: rest) =>
    if listStartsWith lit t then
      match matchCap close (t.drop lit.length) with
      | some cap => some (lit ++ cap ++ [close])
      | none => reSearch lit close rest
    else reSearch lit close rest

/-- Python `s.index(c)`: index of the first occurrence of `c` (the code
only applies it to strings that contain `c`). -/
def pyIndex (c : Char) : List Char → Nat
  | [] => 0
  | x :: xs => if x = c then 0 else pyIndex c xs + 1

/-- The slice `s[s.index(delim)+1 : -1]` used to cut the captured value
out of the whole regex match. -/
def extractAfterDelim (delim : Char) (s : List Char) : List Char :=
  (s.drop (pyIndex delim s + 1)).dropLast

/-- The literal part of the hidden-field pattern `value="(.+?)"`. -/
def hiddenFieldLit : List Char := "value=".toList ++ [dquote]

/-- The literal part of the assigned-string pattern `urlPost:'(.+?)'`. -/
def urlPostLit : List Char := "urlPost:".toList ++ [squote]

/-- `MCAuthenticator._prepareMicrosoftLogin` (src/mcrealms/mcrealms/
_mcauth.py lines 111-147), applied to the body of the stage-1 response:
search for the hidden-field pattern, slice out the sFTTag, search for the
assigned-string pattern, slice out urlPost; each failed search raises a
plain Exception with the shown message. -/
def prepareMicrosoftLogin (body : List Char) :
    Except PyErr (List Char × List Char) :=
  match reSearch hiddenFieldLit dquote body with
  | none => .error (.exn "SFTTagNotFoundError: sFTTag value was not found")
  | some src1 =>
    match reSearch urlPostLit squote body with
    | none => .error (.exn "URLPostNotFoundError: url post value was not found")
    | some src2 =>
      .ok (extractAfterDelim dquote src1, extractAfterDelim squote src2)

/-- Decoded JSON values, as produced by `res.json()` in the code. -/
inductive JVal where
  | str (s : List Char)
  | num (n : Int)
  | bool (b : Bool)
  | null
  | arr (xs : List JVal)
  | obj (fields : List (List Char × JVal))

/-- Python subscripting `payload[k]` with a string key: KeyError when the
key is absent from the object, TypeError when the value is not an
object. -/
def jGet : JVal → List Char → Except PyErr JVal
  | .obj fields, k =>
    match fields.find? (fun p => p.1 = k) with
    | some p => .ok p.2
    | none => .error (.keyError k)
  | _, _ => .error .typeError

/-- Python subscripting `payload[i]` with an integer index: IndexError
when out of range, TypeError when the value is not an array. -/
def jIdx : JVal → Nat → Except PyErr JVal
  | .arr xs, i =>
    match xs.get? i with
    | some v => .ok v
    | none => .error .indexError
  | _, _ => .error .typeError

/-- Python dict lookup on the string-valued parameter dict built by
`_getParamsFromUrl`: KeyError when absent. -/
def dictGet (d : List (List Char × List Char)) (k : List Char) :
    Except PyErr (List Char) :=
  match d.find? (fun p => p.1 = k) with
  | some p => .ok p.2
  | none => .error (.keyError k)

/-- `MCAuthenticator._authenticateWithMicrosoft` (src/mcrealms/mcrealms/
_mcauth.py lines 150-179), applied to the final URL of the stage-2 POST
response: parse the fragment parameters and take `access_token`. -/
def authenticateWithMicrosoft (redirectUrl : List Char) :
    Except PyErr (List Char) := do
  let loginData ← getParamsFromUrl redirectUrl
  dictGet loginData "access_token".toList

/-- `MCAuthenticator._authenticateWithXboxLive` (lines 182-212), applied
to the decoded JSON of the stage-3 response: extract `Token` and
`DisplayClaims.xui[0].uhs`. -/
def authenticateWithXboxLive (payload : JVal) :
    Except PyErr (JVal × JVal) := do
  let token ← jGet payload "Token".toList
  let dc ← jGet payload "DisplayClaims".toList
  let xui ← jGet dc "xui".toList
  let x0 ← jIdx xui 0
  let uhs ← jGet x0 "uhs".toList
  return (token, uhs)

/-- `MCAuthenticator._getXstsToken` (lines 214-248), applied to the
decoded JSON of the stage-4 response: extract `Token`. -/
def getXstsToken (payload : JVal) : Except PyErr JVal :=
  jGet payload "Token".toList

/-- `MCAuthenticator._authenticateWithMinecraft` (lines 250-282), applied
to the decoded JSON of the stage-5 response: extract `access_token`. -/
def authenticateWithMinecraft (payload : JVal) : Except PyErr JVal :=
  jGet payload "access_token".toList

/-- The five handshake stages, in the order `MCAuthenticator.authenticate`
runs them. -/
inductive Stage where
  | prepare
  | identityLogin
  | brokerExchange
  | tokenUpgrade
  | serviceLogin
  deriving DecidableEq, Repr

/-- The environment of one handshake run: the stage-1 response body, the
final URL of the stage-2 POST, and the decoded JSON payloads of the
stage-3, stage-4 and stage-5 responses. -/
structure AuthWorld where
  prepareBody : List Char
  loginRedirectUrl : List Char
  xboxPayload : JVal
  xstsPayload : JVal
  mcPayload : JVal

/-- `MCAuthenticator.authenticate` (src/mcrealms/mcrealms/_mcauth.py
lines 77-108): run the five stages strictly in sequence; an exception in
any stage propagates immediately, so no later stage runs. The second
component records which stages performed their HTTP exchange. -/
def authenticateT (w : AuthWorld) : Except PyErr JVal × List Stage :=
  match prepareMicrosoftLogin w.prepareBody with
  | .error e => (.error e, [.prepare])
  | .ok _ =>
    match authenticateWithMicrosoft w.loginRedirectUrl with
    | .error e => (.error e, [.prepare, .identityLogin])
    | .ok _ =>
      match authenticateWithXboxLive w.xboxPayload with
      | .error e => (.error e, [.prepare, .identityLogin, .brokerExchange])
      | .ok _ =>
        match getXstsToken w.xstsPayload with
        | .error e =>
          (.error e, [.prepare, .identityLogin, .brokerExchange, .tokenUpgrade])
        | .ok _ =>
          (authenticateWithMinecraft w.mcPayload,
           [.prepare, .identityLogin, .brokerExchange, .tokenUpgrade,
            .serviceLogin])

/-- The post-handshake state of `MCRealmsClient` (src/mcrealms/mcrealms/
mcrclient.py lines 35-39): the service access token, the resolved
account id and the profile name. -/
structure ClientState where
  accessToken : String
  uid : Int
  username : String

/-- An outgoing HTTP request: method, URL, headers. -/
structure HttpRequest where
  method : String
  url : String
  headers : List (String × String)

/-- The cookie-style session credential built on line 59 of
src/mcrealms/mcrealms/mcrclient.py:
`sid=token:{accessToken}:{uid};user={username};version=1.18.2`. -/
def sessionCookie (st : ClientState) : String :=
  "sid=token:" ++ st.accessToken ++ ":" ++ toString st.uid
    ++ ";user=" ++ st.username ++ ";version=1.18.2"

/-- The header list every presence request carries
(src/mcrealms/mcrealms/mcrclient.py lines 56-60). -/
def presenceRequestHeaders (st : ClientState) : List (String × String) :=
  [("Content-Type", "application/json"),
   ("Accept", "application/json"),
   ("Cookie", sessionCookie st)]

/-- The GET request issued by every call of
`MCRealmsClient.getPlayersList` (lines 55-61). -/
def presenceRequest (st : ClientState) : HttpRequest :=
  { method := "GET",
    url := "https://pc.realms.minecraft.net" ++ "/activities/liveplayerlist",
    headers := presenceRequestHeaders st }

/-- One entry of the `lists` array of the presence response: a resource
(server) id and the JSON-encoded-as-string nested player list. -/
structure ServerActivity where
  serverId : Int
  playerList : String
  deriving DecidableEq, Repr

/-- One element of a decoded nested player list: the code reads only
`player['playerId']`. -/
structure Player where
  playerId : Int
  deriving DecidableEq, Repr

/-- Nested `json.loads` of a player-list string followed by the
`player['playerId']` projections; library behaviour, supplied as an
oracle. -/
abbrev JsonLoads := String → Except PyErr (List Player)

/-- Per-id directory lookup `self.getPlayerName` (one network call per
id); supplied as an oracle. -/
abbrev NameLookup := Int → Except PyErr String

/-- The match found by the loop of `MCRealmsClient.getPlayersList`:
decode the entry's nested player-list string and resolve each playerId
to a profile name, in order. -/
def processActivity (decode : JsonLoads) (resolve : NameLookup)
    (a : ServerActivity) : Except PyErr (List String) := do
  let players ← decode a.playerList
  players.mapM (fun p => resolve p.playerId)

/-- The loop of `MCRealmsClient.getPlayersList`
(src/mcrealms/mcrealms/mcrclient.py lines 62-73) over the decoded `lists`
array: skip entries whose serverId differs from the target, return from
inside the loop at the first match, and return `[]` when the loop runs
out. -/
def getPlayersList (decode : JsonLoads) (resolve : NameLookup)
    (entries : List ServerActivity) (targetServerId : Int) :
    Except PyErr (List String) :=
  match entries with
  | [] => .ok []
  | a :: rest =>
    if a.serverId ≠ targetServerId then
      getPlayersList decode resolve rest targetServerId
    else
      processActivity decode resolve a

/-- The Discord message body built for one newly online player
(src/webhooks/webhook.py line 31). -/
def notifyBody (playerName : String) : String :=
  "@everyone " ++ playerName ++ " is now playing on the server!"

/-- One iteration of the polling loop of `main`
(src/webhooks/webhook.py lines 22-26): `currPlayers` is the freshly
queried set, `newlyOnlinePlayers = currPlayers.difference(prevPlayers)`,
and `prevPlayers` is replaced by `currPlayers`. Returns (new baseline,
newly online set). -/
def pollCycle (prevPlayers currPlayers : Finset String) :
    Finset String × Finset String :=
  (currPlayers, currPlayers \ prevPlayers)

/-- One loop iteration with the notification for-loop made explicit: the
iteration order of the set `newlyOnlinePlayers` is taken as an argument
(Python set iteration order is unspecified), and the messages posted are
returned in that order. The baseline assignment on line 26 precedes the
for-loop on lines 28-34. -/
def pollCycleEmit (prevPlayers currPlayers : Finset String)
    (order : List String) : Finset String × List String :=
  ((pollCycle prevPlayers currPlayers).1, order.map notifyBody)

/-- The polling loop of `main` run on a finite list of per-cycle query
outcomes, starting from the baseline `prevPlayers`. A cycle whose query
raises propagates the exception out of the loop (there is no handler in
src/webhooks/webhook.py), dropping all remaining cycles; otherwise the
cycle's newly-online set is recorded and the loop continues. Returns the
final outcome and the per-cycle newly-online sets. -/
def runCycles (prevPlayers : Finset String) :
    List (Except PyErr (List String)) →
      Except PyErr (Finset String) × List (Finset String)
  | [] => (.ok prevPlayers, [])
  | q :: qs =>
    match q with
    | .error e => (.error e, [])
    | .ok names =>
      let c := pollCycle prevPlayers names.toFinset
      let r := runCycles c.1 qs
      (r.1, c.2 :: r.2)

/-- `main` (src/webhooks/webhook.py lines 16-36): the first query on
line 19 only seeds `prevPlayers` — no notification code runs for it —
and the loop then processes the remaining queries. -/
def runPoller (firstQuery : Except PyErr (List String))
    (laterQueries : List (Except PyErr (List String))) :
    Except PyErr (Finset String) × List (Finset String) :=
  match firstQuery with
  | .error e => (.error e, [])
  | .ok names => runCycles names.toFinset laterQueries

/-! Helper lemmas about the Python string-splitting model. -/

theorem splitOnChar_not_mem (c : Char) (l : List Char) (h : c ∉ l) :
    splitOnChar c l = [l] := by
  induction l with
  | nil => rfl
  | cons x xs ih =>
    rw [List.mem_cons] at h
    push_neg at h
    obtain ⟨h1, h2⟩ := h
    have hx : ¬ x = c := fun hh => h1 hh.symm
    simp [splitOnChar, ih h2, hx]

theorem splitOnChar_length (c : Char) (l : List Char) :
    (splitOnChar c l).length = l.count c + 1 := by
  induction l with
  | nil => rfl
  | cons x xs ih =>
    cases hs : splitOnChar c xs with
    | nil => rw [hs] at ih; simp at ih
    | cons y ys =>
      rw [hs] at ih
      by_cases hx : x = c
      · simp only [splitOnChar, hs, hx, if_pos rfl, List.length_cons,
          List.count_cons] at *
        simp [ih]
      · simp only [splitOnChar, hs, if_neg hx, List.length_cons,
          List.count_cons] at *
        have hbx : ¬ c = x := fun hh => hx hh.symm
        simp [ih, hbx, hx]

theorem buildParams_error (ps : List (List Char))
    (h : ∃ p ∈ ps, (splitOnChar '=' p).length ≠ 2) (acc : List (List Char × List Char)) :
    buildParams ps acc = .error .valueError := by
  induction ps generalizing acc with
  | nil => simp at h
  | cons p ps ih =>
    obtain ⟨q, hq, hlen⟩ := h
    rcases List.mem_cons.mp hq with hqp | hmem
    · subst hqp
      unfold buildParams
      cases hsp : splitOnChar '=' q with
      | nil => rfl
      | cons k rest =>
        cases rest with
        | nil => rfl
        | cons v rest2 =>
          cases rest2 with
          | nil => exact absurd (by rw [hsp]; rfl) hlen
          | cons z zs => rfl
    · unfold buildParams
      cases hsp : splitOnChar '=' p with
      | nil => rfl
      | cons k rest =>
        cases rest with
        | nil => rfl
        | cons v rest2 =>
          cases rest2 with
          | nil => exact ih ⟨q, hmem, hlen⟩ _
          | cons z zs => rfl

theorem dictGet_not_mem (d : List (List Char × List Char)) (k : List Char)
    (h : ∀ p ∈ d, p.1 ≠ k) : dictGet d k = .error (.keyError k) := by
  have hfind : d.find? (fun p => p.1 = k) = none := by
    rw [List.find?_eq_none]
    intro x hx
    simpa using h x hx
  simp [dictGet, hfind]

/-- C3: the fragment parser applied to
`https://a/b#access_token=T1&token_type=bearer` yields exactly the
mapping access_token to T1 and token_type to bearer, and for every URL
string without a `#` it raises (the IndexError from `url.split('#')[1]`,
the failure the spec calls MalformedRedirect) instead of returning a
mapping. -/
theorem c3_fragment_parse :
    getParamsFromUrl ("https://a/b#access_token=T1&token_type=bearer".toList)
      = .ok [("access_token".toList, "T1".toList),
             ("token_type".toList, "bearer".toList)]
    ∧ ∀ url : List Char, '#' ∉ url →
        getParamsFromUrl url = .error .indexError := by
  constructor
  · decide
  · intro url h
    unfold getParamsFromUrl
    rw [splitOnChar_not_mem '#' url h]
    rfl

theorem c3_fragment_parse_witness :
    ('#' ∉ ("https://a/b".toList))
    ∧ getParamsFromUrl ("https://a/b".toList) = .error .indexError :=
  ⟨by decide, c3_fragment_parse.2 ("https://a/b".toList) (by decide)⟩

/-- C9: the fragment parser returns a mapping only when every
`&`-delimited piece of the fragment has exactly one `=`: whenever the
fragment (the slot `url.split('#')[1]`) has a piece whose count of `=`
differs from one, the parse raises (the ValueError from the two-place
unpack of `paramStr.split('=')`) instead of returning a mapping. -/
theorem c9_fragment_piece_shape (url frag piece : List Char)
    (hfrag : (splitOnChar '#' url).get? 1 = some frag)
    (hpiece : piece ∈ splitOnChar '&' frag)
    (hcnt : piece.count '=' ≠ 1) :
    getParamsFromUrl url = .error .valueError := by
  unfold getParamsFromUrl
  rw [hfrag]
  exact buildParams_error _ ⟨piece, hpiece, by rw [splitOnChar_length]; omega⟩ _

theorem c9_fragment_piece_shape_witness :
    ((splitOnChar '#' ("https://a/b#flag&token_type=bearer".toList)).get? 1
        = some ("flag&token_type=bearer".toList))
    ∧ ("flag".toList ∈ splitOnChar '&' ("flag&token_type=bearer".toList))
    ∧ ("flag".toList.count '=' ≠ 1)
    ∧ getParamsFromUrl ("https://a/b#flag&token_type=bearer".toList)
        = .error .valueError :=
  ⟨by decide, by decide, by decide,
    c9_fragment_piece_shape ("https://a/b#flag&token_type=bearer".toList)
      ("flag&token_type=bearer".toList) ("flag".toList)
      (by decide) (by decide) (by decide)⟩

/-- A concrete response body holding one hidden-field match and one
assigned-string match, used to ground the scraper theorems. -/
def fixtureBody : List Char :=
  "input ".toList ++ hiddenFieldLit ++ "abc123".toList ++ [dquote]
    ++ " mid ".toList ++ urlPostLit ++ "https://x/y".toList ++ [squote]
    ++ " end".toList

/-- C7: for every response body on which the hidden-field search yields
the match `value="abc123"` and the assigned-string search yields the
match `urlPost:'https://x/y'` (as happens when those literals are the
patterns' only matches), the Prepare-stage scraper returns exactly the
pair abc123, https://x/y. -/
theorem c7_scraper_literal (body : List Char)
    (h1 : reSearch hiddenFieldLit dquote body
        = some (hiddenFieldLit ++ "abc123".toList ++ [dquote]))
    (h2 : reSearch urlPostLit squote body
        = some (urlPostLit ++ "https://x/y".toList ++ [squote])) :
    prepareMicrosoftLogin body
      = .ok ("abc123".toList, "https://x/y".toList) := by
  unfold prepareMicrosoftLogin
  rw [h1, h2]
  decide

theorem c7_scraper_literal_witness :
    (reSearch hiddenFieldLit dquote fixtureBody
        = some (hiddenFieldLit ++ "abc123".toList ++ [dquote]))
    ∧ (reSearch urlPostLit squote fixtureBody
        = some (urlPostLit ++ "https://x/y".toList ++ [squote]))
    ∧ prepareMicrosoftLogin fixtureBody
        = .ok ("abc123".toList, "https://x/y".toList) :=
  ⟨by decide, by decide, c7_scraper_literal fixtureBody (by decide) (by decide)⟩

/-- C4: for every presence response whose entry list has no entry with
the target server id, `getPlayersList` returns the empty list and raises
nothing, whatever the nested-list decoder and the name lookup do. -/
theorem c4_no_match_empty (decode : JsonLoads) (resolve : NameLookup)
    (entries : List ServerActivity) (target : Int)
    (h : ∀ a ∈ entries, a.serverId ≠ target) :
    getPlayersList decode resolve entries target = .ok [] := by
  induction entries with
  | nil => rfl
  | cons a rest ih =>
    have ha := h a (List.mem_cons_self a rest)
    unfold getPlayersList
    simp only [ne_eq, ha, not_false_eq_true, if_pos]
    exact ih fun b hb => h b (List.mem_cons_of_mem a hb)

theorem c4_no_match_empty_witness :
    (∀ a ∈ [ServerActivity.mk 1 "[]", ServerActivity.mk 3 "payload"],
        a.serverId ≠ 2)
    ∧ getPlayersList (fun _ => .error .valueError) (fun _ => .error .typeError)
        [ServerActivity.mk 1 "[]", ServerActivity.mk 3 "payload"] 2 = .ok [] :=
  ⟨by decide,
    c4_no_match_empty (fun _ => .error .valueError) (fun _ => .error .typeError)
      [ServerActivity.mk 1 "[]", ServerActivity.mk 3 "payload"] 2 (by decide)⟩

theorem getPlayersList_skip_to_match (decode : JsonLoads) (resolve : NameLookup)
    (pre : List ServerActivity) (m : ServerActivity)
    (post : List ServerActivity) (target : Int)
    (hpre : ∀ a ∈ pre, a.serverId ≠ target) (hm : m.serverId = target) :
    getPlayersList decode resolve (pre ++ m :: post) target
      = processActivity decode resolve m := by
  induction pre with
  | nil =>
    unfold getPlayersList
    simp [hm]
  | cons a rest ih =>
    have ha := hpre a (List.mem_cons_self a rest)
    rw [List.cons_append]
    unfold getPlayersList
    simp only [ne_eq, ha, not_false_eq_true, if_pos]
    exact ih fun b hb => hpre b (List.mem_cons_of_mem a hb)

/-- C10: when the entry list is `pre ++ m :: post` with no match in
`pre` and `m` matching the target, the presence query is exactly the
processing of `m`'s nested player list, and the entries after `m` are
never examined: the result also equals the run on `pre ++ [m]`, with
`post` discarded. -/
theorem c10_first_match_only (decode : JsonLoads) (resolve : NameLookup)
    (pre : List ServerActivity) (m : ServerActivity)
    (post : List ServerActivity) (target : Int)
    (hpre : ∀ a ∈ pre, a.serverId ≠ target) (hm : m.serverId = target) :
    getPlayersList decode resolve (pre ++ m :: post) target
      = processActivity decode resolve m
    ∧ getPlayersList decode resolve (pre ++ m :: post) target
      = getPlayersList decode resolve (pre ++ [m]) target := by
  refine ⟨getPlayersList_skip_to_match decode resolve pre m post target hpre hm, ?_⟩
  rw [getPlayersList_skip_to_match decode resolve pre m post target hpre hm,
    getPlayersList_skip_to_match decode resolve pre m [] target hpre hm]

theorem c10_first_match_only_witness :
    (∀ a ∈ [ServerActivity.mk 1 "x"], a.serverId ≠ (2 : Int))
    ∧ (ServerActivity.mk 2 "y").serverId = (2 : Int)
    ∧ getPlayersList (fun _ => .ok [Player.mk 7]) (fun n => .ok (toString n))
        ([ServerActivity.mk 1 "x"]
          ++ ServerActivity.mk 2 "y" :: [ServerActivity.mk 2 "z"]) 2
      = processActivity (fun _ => .ok [Player.mk 7]) (fun n => .ok (toString n))
          (ServerActivity.mk 2 "y") :=
  ⟨by decide, by decide,
    (c10_first_match_only (fun _ => .ok [Player.mk 7])
      (fun n => .ok (toString n)) [ServerActivity.mk 1 "x"]
      (ServerActivity.mk 2 "y") [ServerActivity.mk 2 "z"] 2
      (by decide) (by decide)).1⟩

theorem strAppendAssoc (a b c : String) : a ++ b ++ c = a ++ (b ++ c) :=
  String.ext (by simp [String.data_append])

/-- The cookie template: the session credential as a function of its
four data components (token, account id, profile name, version tag). -/
def cookieTemplate (tok : String) (uid : Int) (name : String)
    (ver : String) : String :=
  "sid=token:" ++ tok ++ ":" ++ toString uid
    ++ ";user=" ++ name ++ ";version=" ++ ver

/-- C8: every presence request carries exactly one Cookie header, its
value is the synthesized session credential, and that credential is the
cookie template instantiated with exactly the service access token, the
resolved account id, the profile name, and the fixed protocol-version
tag 1.18.2 — for every post-handshake client state. -/
theorem c8_session_cookie (st : ClientState) :
    (presenceRequest st).headers.filter (fun p => p.1 == "Cookie")
      = [("Cookie", sessionCookie st)]
    ∧ sessionCookie st
      = cookieTemplate st.accessToken st.uid st.username "1.18.2" := by
  constructor
  · simp [presenceRequest, presenceRequestHeaders, List.filter]
  · show sessionCookie st
      = "sid=token:" ++ st.accessToken ++ ":" ++ toString st.uid
          ++ ";user=" ++ st.username ++ ";version=" ++ "1.18.2"
    rw [strAppendAssoc]
    rfl

/-- C5: the first query of a freshly started poller emits no
notification whatever set it returns — running the poller with no later
query emits nothing at all — and that first set is the baseline the next
cycle diffs against. -/
theorem c5_first_poll_baseline :
    (∀ first : List String,
        runPoller (.ok first) [] = (.ok first.toFinset, []))
    ∧ (∀ (first q : List String) (qs : List (Except PyErr (List String))),
        (runPoller (.ok first) (.ok q :: qs)).2.head?
          = some (q.toFinset \ first.toFinset)) := by
  constructor
  · intro first
    rfl
  · intro first q qs
    rfl

/-- C6: one poll cycle computes the newly-online set as the set
difference current minus previous and replaces the baseline with
current; on the quoted instances the difference is empty resp. B, C; and
the resulting baseline does not depend on the order in which the
notification loop walks the newly-online set. -/
theorem c6_poll_diff :
    (∀ prev curr : Finset String, pollCycle prev curr = (curr, curr \ prev))
    ∧ (pollCycle ({"A", "B"} : Finset String) {"A", "B"}).2 = ∅
    ∧ (pollCycle ({"A"} : Finset String) {"A", "B", "C"}).2
        = ({"B", "C"} : Finset String)
    ∧ (∀ (prev curr : Finset String) (o1 o2 : List String),
        (pollCycleEmit prev curr o1).1 = (pollCycleEmit prev curr o2).1)
    ∧ (∀ (prev curr : Finset String) (order : List String),
        (pollCycleEmit prev curr order).1 = curr) :=
  ⟨fun _ _ => rfl, by decide, by decide, fun _ _ _ _ => rfl, fun _ _ _ => rfl⟩

/-- C2 is a code bug: the loop of `main` has no exception handler, so a
cycle whose presence query raises does not proceed to the next cycle —
the exception propagates and the process dies, dropping every later
cycle (first conjunct, evaluated at the failing input). For contrast,
the second conjunct shows the run the claim describes: with the failure
replaced by an uneventful successful cycle, the loop continues and the
preserved baseline produces the notification for B on the next cycle. -/
theorem c2_poller_crash_eval :
    runCycles ({"A"} : Finset String)
      [.error (.exn "PresenceQueryFailed"), .ok ["A", "B"]]
      = (.error (.exn "PresenceQueryFailed"), [])
    ∧ runCycles ({"A"} : Finset String) [.ok ["A"], .ok ["A", "B"]]
      = (.ok ({"A", "B"} : Finset String),
         [(∅ : Finset String), ({"B"} : Finset String)]) := by
  constructor
  · rfl
  · decide

/-- C1 (amended): in every handshake run whose stage-2 redirect-URL
fragment parses to a parameter dict without the access_token key, the
orchestrator stops with the stage-2 KeyError on access_token: the trace
records only stages 1 and 2 (BrokerExchange, BrokerTokenUpgrade and
ServiceLogin perform zero exchanges), and no credential — partial or
otherwise — is returned. The error is stage 2's own, but see the
companion counterexample: its value does not by itself identify stage 2. -/
theorem c1_identityLogin_short_circuit (w : AuthWorld)
    (pr : List Char × List Char) (d : List (List Char × List Char))
    (hprep : prepareMicrosoftLogin w.prepareBody = .ok pr)
    (hfrag : getParamsFromUrl w.loginRedirectUrl = .ok d)
    (hno : ∀ p ∈ d, p.1 ≠ "access_token".toList) :
    authenticateT w
      = (.error (.keyError ("access_token".toList)),
         [.prepare, .identityLogin]) := by
  have hms : authenticateWithMicrosoft w.loginRedirectUrl
      = .error (.keyError ("access_token".toList)) := by
    unfold authenticateWithMicrosoft
    rw [hfrag]
    simpa [Bind.bind, Except.bind] using dictGet_not_mem d _ hno
  unfold authenticateT
  rw [hprep, hms]

theorem c1_identityLogin_short_circuit_witness :
    (prepareMicrosoftLogin fixtureBody
        = .ok ("abc123".toList, "https://x/y".toList))
    ∧ (getParamsFromUrl ("https://r#a=1".toList)
        = .ok [("a".toList, "1".toList)])
    ∧ (∀ p ∈ [("a".toList, "1".toList)], p.1 ≠ "access_token".toList)
    ∧ authenticateT
        ⟨fixtureBody, "https://r#a=1".toList, .null, .null, .null⟩
      = (.error (.keyError ("access_token".toList)),
         [.prepare, .identityLogin]) :=
  ⟨by decide, by decide, by decide,
    c1_identityLogin_short_circuit
      ⟨fixtureBody, "https://r#a=1".toList, .null, .null, .null⟩
      ("abc123".toList, "https://x/y".toList) [("a".toList, "1".toList)]
      (by decide) (by decide) (by decide)⟩

/-- The claim's phrase "the single error raised identifies stage 2 as
the failing stage", formalised: an error value names stage 2 when every
handshake run that raises it stopped after stage 2. -/
def errorNamesStage2 (e : PyErr) : Prop :=
  ∀ w : AuthWorld, (authenticateT w).1 = .error e →
    (authenticateT w).2 = [.prepare, .identityLogin]

/-- A stage-3 payload of the expected JSON shape. -/
def xboxPayloadOk : JVal :=
  .obj [("Token".toList, .str ("XBL".toList)),
        ("DisplayClaims".toList,
         .obj [("xui".toList, .arr [.obj [("uhs".toList, .str ("H".toList))]])])]

/-- A run in which stage 2 fails to find access_token in the fragment. -/
def stage2FailWorld : AuthWorld :=
  ⟨fixtureBody, "https://r#a=1".toList, .null, .null, .null⟩

/-- A run in which stages 1-4 succeed and stage 5 fails to find
access_token in the service-login response. -/
def stage5FailWorld : AuthWorld :=
  ⟨fixtureBody, "https://r#access_token=MSTOK".toList, xboxPayloadOk,
   .obj [("Token".toList, .str ("XSTS".toList))], .obj []⟩

/-- C1 counterexample: the error a stage-2 access_token failure raises is
the bare KeyError on access_token, and the very same error value is
raised by a run in which stages 1-4 all succeed and ServiceLogin
(stage 5) lacks access_token — its trace shows all five exchanges ran.
Hence the raised error does not identify stage 2 as the failing stage. -/
theorem c1_error_not_stage_specific :
    (authenticateT stage2FailWorld).1
      = .error (.keyError ("access_token".toList))
    ∧ (authenticateT stage5FailWorld).1
      = .error (.keyError ("access_token".toList))
    ∧ (authenticateT stage5FailWorld).2
      = [.prepare, .identityLogin, .brokerExchange, .tokenUpgrade,
         .serviceLogin]
    ∧ ¬ errorNamesStage2 (.keyError ("access_token".toList)) := by
  refine ⟨by rfl, by rfl, by rfl, fun h => ?_⟩
  exact absurd (h stage5FailWorld (by rfl)) (by decide)

end MCRealms
